import Mathlib

set_option autoImplicit false

/-
Verification of the juju SSH-bastion sources:
  apiserver/facades/controller/sshserver (facade, register) and the
  internal/worker/sshserver configuration/protocol contracts.

The facade's `PublicKeyAuthentication` and `authorizedKeysPerModel` are
embedded directly from the Go source.  External capabilities (the
`names` tag parser, `golang.org/x/crypto/ssh` key parsers, the state
pool and the `SplitAuthorisedKeys` helper) are abstracted as fields of a
`Capabilities` record, so the theorems hold for every behaviour of
those collaborators.
-/

/-- `params.SSHPKIAuthArgs`: the RPC arguments of `PublicKeyAuthentication`
(`UserTag string`, `PublicKey []byte`). -/
structure SSHPKIAuthArgs where
  UserTag : String
  PublicKey : List Nat
  deriving DecidableEq

/-- The slice of a model's config that `authorizedKeysPerModel` reads:
`cfg.AuthorizedKeys()` is a raw string later split into entries. -/
structure ModelConfig where
  AuthorizedKeys : String
  deriving DecidableEq

/-- The distinct error shapes `PublicKeyAuthentication` can return.  The four
`failed*` constructors embed the `errors.Errorf` wrappings of the Go code
(each carries the wrapped message), `notFound` embeds
`errors.NotFoundf("matching public key not found")`. -/
inductive AuthError where
  | failedParseUserTag (msg : String)
  | failedParsePublicKey (msg : String)
  | failedGetModelUUIDs (msg : String)
  | failedGetAuthKeys (msg : String)
  | notFound (msg : String)
  deriving DecidableEq

/-- `errors.Is(err, errors.NotFound)`: only the `errors.NotFoundf` result of
an exhausted scan satisfies the not-found classification; the `Errorf`
wrappers do not. -/
def AuthError.isNotFound : AuthError → Bool
  | .notFound _ => true
  | _ => false

/-- The message each error renders to, following the Go format strings
(`errors.NotFoundf` appends " not found", as the facade test expects the
message "matching public key not found not found"). -/
def AuthError.render : AuthError → String
  | .failedParseUserTag e => "failed to parse user tag: " ++ e
  | .failedParsePublicKey e => "failed to parse public key: " ++ e
  | .failedGetModelUUIDs e => "failed to get model uuids for user: " ++ e
  | .failedGetAuthKeys e => "failed to get authorized key for model: " ++ e
  | .notFound m => m ++ " not found"

/-- The external collaborators of the facade, abstracted: `U` is the parsed
user-tag type (`names.UserTag`), `P` the parsed public-key type
(`ssh.PublicKey`).  `Marshal` is the wire encoding `PublicKey.Marshal()`
used by `ssh.KeysEqual`.  `GetModelConfig` folds
`statePool.GetModel(uuid)` followed by `model.Config()` (both failures are
wrapped identically by `errors.Trace`). -/
structure Capabilities (U P : Type) where
  ParseUserTag : String → Except String U
  ParsePublicKey : List Nat → Except String P
  Marshal : P → List Nat
  ModelUUIDsForUser : U → Except String (List String)
  GetModelConfig : String → Except String ModelConfig
  SplitAuthorisedKeys : String → List String
  ParseAuthorizedKey : String → Except String P

/-- gliderlabs `ssh.KeysEqual`: constant-time comparison of the two keys'
`Marshal()` encodings, i.e. exact cryptographic key equality. -/
def KeysEqual {U P : Type} (cap : Capabilities U P) (a b : P) : Bool :=
  decide (cap.Marshal a = cap.Marshal b)

/-- `Facade.authorizedKeysPerModel`: get the model from the pool, read its
config, split the authorized-keys string into entries. -/
def authorizedKeysPerModel {U P : Type} (cap : Capabilities U P)
    (uuid : String) : Except String (List String) :=
  match cap.GetModelConfig uuid with
  | .error e => .error e
  | .ok cfg => .ok (cap.SplitAuthorisedKeys cfg.AuthorizedKeys)

/-- The inner loop of `PublicKeyAuthentication` over one model's entries:
entries that fail `ParseAuthorizedKey` are skipped (`continue`), a parsed
entry equal to the candidate key returns success (`return nil`). -/
def scanKeys {U P : Type} (cap : Capabilities U P) (publicKey : P) :
    List String → Bool
  | [] => false
  | authKey :: rest =>
    match cap.ParseAuthorizedKey authKey with
    | .error _ => scanKeys cap publicKey rest
    | .ok pubKey =>
      if KeysEqual cap publicKey pubKey then true
      else scanKeys cap publicKey rest

/-- The outer loop of `PublicKeyAuthentication` over the user's models: a
failing per-model fetch returns the wrapped error, a model containing a
matching key returns success, exhaustion returns the not-found error. -/
def scanModels {U P : Type} (cap : Capabilities U P) (publicKey : P) :
    List String → Except AuthError Unit
  | [] => .error (.notFound "matching public key not found")
  | uuid :: rest =>
    match authorizedKeysPerModel cap uuid with
    | .error e => .error (.failedGetAuthKeys e)
    | .ok authKeys =>
      if scanKeys cap publicKey authKeys then .ok ()
      else scanModels cap publicKey rest

/-- `Facade.PublicKeyAuthentication`: parse the user tag, parse the public
key, list the user's models, then scan every model's authorized keys for a
cryptographic match. -/
def PublicKeyAuthentication {U P : Type} (cap : Capabilities U P)
    (args : SSHPKIAuthArgs) : Except AuthError Unit :=
  match cap.ParseUserTag args.UserTag with
  | .error e => .error (.failedParseUserTag e)
  | .ok userTag =>
    match cap.ParsePublicKey args.PublicKey with
    | .error e => .error (.failedParsePublicKey e)
    | .ok publicKey =>
      match cap.ModelUUIDsForUser userTag with
      | .error e => .error (.failedGetModelUUIDs e)
      | .ok modelUUIDs => scanModels cap publicKey modelUUIDs

/-- The remote calls `PublicKeyAuthentication` can perform:
`systemState.ModelUUIDsForUser` and the per-model fetch of
`authorizedKeysPerModel` (`statePool.GetModel` + `model.Config`). -/
inductive RemoteCall where
  | listModels (userTag : String)
  | fetchKeys (modelUUID : String)
  deriving DecidableEq

/-- `scanModels` instrumented with the sequence of model uuids actually
fetched, in order; the result component is unchanged. -/
def scanModelsTrace {U P : Type} (cap : Capabilities U P) (publicKey : P) :
    List String → Except AuthError Unit × List String
  | [] => (.error (.notFound "matching public key not found"), [])
  | uuid :: rest =>
    match authorizedKeysPerModel cap uuid with
    | .error e => (.error (.failedGetAuthKeys e), [uuid])
    | .ok authKeys =>
      if scanKeys cap publicKey authKeys then (.ok (), [uuid])
      else
        ((scanModelsTrace cap publicKey rest).1,
          uuid :: (scanModelsTrace cap publicKey rest).2)

/-- `PublicKeyAuthentication` instrumented with the sequence of remote calls
actually performed, in order; the result component is unchanged. -/
def PublicKeyAuthenticationTrace {U P : Type} (cap : Capabilities U P)
    (args : SSHPKIAuthArgs) : Except AuthError Unit × List RemoteCall :=
  match cap.ParseUserTag args.UserTag with
  | .error e => (.error (.failedParseUserTag e), [])
  | .ok userTag =>
    match cap.ParsePublicKey args.PublicKey with
    | .error e => (.error (.failedParsePublicKey e), [])
    | .ok publicKey =>
      match cap.ModelUUIDsForUser userTag with
      | .error e => (.error (.failedGetModelUUIDs e), [RemoteCall.listModels args.UserTag])
      | .ok modelUUIDs =>
        ((scanModelsTrace cap publicKey modelUUIDs).1,
          RemoteCall.listModels args.UserTag ::
            (scanModelsTrace cap publicKey modelUUIDs).2.map RemoteCall.fetchKeys)

/-- The per-model fetch of `uuid` succeeds. -/
def fetchOk {U P : Type} (cap : Capabilities U P) (uuid : String) : Bool :=
  match authorizedKeysPerModel cap uuid with
  | .ok _ => true
  | .error _ => false

/-- The per-model fetch of `uuid` succeeds and none of its entries matches
the candidate key. -/
def fetchedNoMatch {U P : Type} (cap : Capabilities U P) (pk : P)
    (uuid : String) : Bool :=
  match authorizedKeysPerModel cap uuid with
  | .error _ => false
  | .ok ks => !(scanKeys cap pk ks)

/-- The candidate key `pk` is cryptographically equal to some parseable
entry of the authorized-key list of model `uuid`. -/
def keyMatchInModel {U P : Type} (cap : Capabilities U P) (pk : P)
    (uuid : String) : Prop :=
  ∃ ks, authorizedKeysPerModel cap uuid = .ok ks ∧
    ∃ entry ∈ ks, ∃ k, cap.ParseAuthorizedKey entry = .ok k ∧
      KeysEqual cap pk k = true

/-
The internal/worker/sshserver implementation is not under src/ (only its
test is), so the worker-side contracts below are modelled from the spec.
src/internal/worker/sshserver/server_test.go fixes their names
(`ServerWorkerConfig`, `Validate`, the acknowledgement string).
-/

/-- Modelled from the spec: the bastion configuration (spec section 3,
`BastionConfig`) — the PEM host key, the pre-bound listener and the
authorization client; the worker source holding this type is not under
src/.  Presence of the listener and client handles is modelled with
`Option Unit`; an unset host key is the empty string, as in the
`TestValidate` source. -/
structure ServerWorkerConfig where
  JumpHostKey : String
  Listener : Option Unit
  FacadeClient : Option Unit
  deriving DecidableEq

/-- A "not valid" configuration error (`errors.NotValidf`). -/
inductive ConfigError where
  | notValid (msg : String)
  deriving DecidableEq

/-- Modelled from the spec: `Validate(config)` (spec section 4.1) "fails
with a not valid error if hostKey, listener, or authClient is unset"; the
implementation is not under src/. -/
def ServerWorkerConfig.Validate (c : ServerWorkerConfig) : Except ConfigError Unit :=
  if c.JumpHostKey = "" then .error (.notValid "empty JumpHostKey")
  else
    match c.Listener with
    | none => .error (.notValid "nil Listener")
    | some _ =>
      match c.FacadeClient with
      | none => .error (.notValid "nil FacadeClient")
      | some _ => .ok ()

/-- The destination descriptor parsed from a direct-tcpip request host
(spec section 3). -/
structure Destination where
  unitNumber : Nat
  applicationName : String
  modelID : String
  port : Nat
  deriving DecidableEq

/-- The fixed domain suffix of destination addresses, as in the
server test's dialled address. -/
def domainSuffix : String := "juju.local"

/-- The dotted address form of a destination,
`<unitNumber>.<applicationName>.<modelID>.<fixed-domain-suffix>`. -/
def Destination.address (d : Destination) : String :=
  toString d.unitNumber ++ "." ++ d.applicationName ++ "." ++ d.modelID
    ++ "." ++ domainSuffix

/-- Modelled from the spec: the terminating hop's acknowledgement (spec
section 6), the exact session output the client receives; the worker
source producing it is not under src/. -/
def terminatingAck (d : Destination) (user : String) : String :=
  "Your final destination is: " ++ d.address ++ " as user: " ++ user ++ "\n"

/-- Modelled from the spec: the terminating hop's public-key callback (spec
section 4.3) — a nil result of the remote authorization call grants the
handshake for that key, any error denies that key; the worker source is
not under src/.  `check` abstracts `FacadeClient.PublicKeyAuthentication`. -/
def publicKeyCallback (check : String → List Nat → Except String Unit)
    (user : String) (key : List Nat) : Bool :=
  match check user key with
  | .ok _ => true
  | .error _ => false

/-- Modelled from the spec: standard SSH multi-key negotiation at the
terminating hop — the client's offered keys are evaluated in order, the
handshake succeeds as soon as one key is granted and fails once the key
set is exhausted. -/
def terminatingHandshake (check : String → List Nat → Except String Unit)
    (user : String) : List (List Nat) → Bool
  | [] => false
  | key :: rest =>
    if publicKeyCallback check user key then true
    else terminatingHandshake check user rest

/-
Embedding of apiserver/facades/controller/sshserver/register.go.
-/

/-- `facade.Authorizer` as used by `NewExternalFacade`: only its
`AuthController()` answer matters. -/
structure Authorizer where
  AuthController : Bool
  deriving DecidableEq

/-- The system state handle returned by `statePool.SystemState()`. -/
structure SystemStateRef where
  id : String
  deriving DecidableEq

/-- The state pool as seen by `NewExternalFacade`: `SystemState()` either
returns the system state or fails. -/
structure StatePoolRef where
  SystemState : Except String SystemStateRef

/-- `facade.Context` as used by `NewExternalFacade`: `ctx.Auth()` and
`ctx.StatePool()`. -/
structure FacadeContext where
  Auth : Authorizer
  StatePool : StatePoolRef

/-- The value `NewFacade(ctx, statePool, systemState)` constructs. -/
structure Facade where
  statePool : StatePoolRef
  systemState : SystemStateRef

/-- The errors `NewExternalFacade` can return: `apiservererrors.ErrPerm`
("permission denied") or the traced `SystemState()` failure. -/
inductive FacadeNewError where
  | errPerm
  | traced (msg : String)
  deriving DecidableEq

/-- `NewExternalFacade`: reject non-controller callers with `ErrPerm`,
propagate a `SystemState()` failure, otherwise build the facade. -/
def NewExternalFacade (ctx : FacadeContext) : Except FacadeNewError Facade :=
  if !ctx.Auth.AuthController then .error .errPerm
  else
    match ctx.StatePool.SystemState with
    | .error e => .error (.traced e)
    | .ok st => .ok { statePool := ctx.StatePool, systemState := st }

/-
Concrete capability instances used to witness the theorems, in the style
of the gomock fakes of the test suites.
-/

/-- Wire encoding of the test key granted on model m2/m3. -/
def keyA : List Nat := [1, 2, 3]

/-- Wire encoding of the test key granted on model m1. -/
def keyB : List Nat := [4, 5, 6]

/-- A fake `names.ParseUserTag`: accepts the two test tags. -/
def parseTagTable : String → Except String String := fun s =>
  if s = "user-alice" then .ok "alice"
  else if s = "user-bob" then .ok "bob"
  else .error "invalid user tag"

/-- A fake `ssh.ParseAuthorizedKey`: two distinct entry strings parse to
the same key `keyA`, one entry parses to `keyB`, anything else is
malformed. -/
def parseKeyTable : String → Except String (List Nat) := fun s =>
  if s = "ssh-rsa AAA" then .ok keyA
  else if s = "ssh-rsa AAA2" then .ok keyA
  else if s = "ssh-rsa BBB" then .ok keyB
  else .error "no key found"

/-- A fake capability set for the happy paths: alice can access models
m1, m2 and m3; m1 stores a malformed entry and `keyB`; m2 and m3 store
`keyA`; bob can access no model. -/
def capHappy : Capabilities String (List Nat) where
  ParseUserTag := parseTagTable
  ParsePublicKey := fun b => if b = [] then .error "short read" else .ok b
  Marshal := fun k => k
  ModelUUIDsForUser := fun u =>
    if u = "alice" then .ok ["m1", "m2", "m3"] else .ok []
  GetModelConfig := fun uuid =>
    if uuid = "m1" then .ok { AuthorizedKeys := "raw1" }
    else if uuid = "m2" then .ok { AuthorizedKeys := "raw2" }
    else if uuid = "m3" then .ok { AuthorizedKeys := "raw2" }
    else .error "model not found"
  SplitAuthorisedKeys := fun s =>
    if s = "raw1" then ["bad entry", "ssh-rsa BBB"]
    else if s = "raw2" then ["ssh-rsa AAA"]
    else []
  ParseAuthorizedKey := parseKeyTable

/-- A fake capability set where the fetch of alice's first model fails and
her second model stores a matching key. -/
def capFetchFail : Capabilities String (List Nat) where
  ParseUserTag := parseTagTable
  ParsePublicKey := fun b => if b = [] then .error "short read" else .ok b
  Marshal := fun k => k
  ModelUUIDsForUser := fun u =>
    if u = "alice" then .ok ["mf", "m2"] else .ok []
  GetModelConfig := fun uuid =>
    if uuid = "m2" then .ok { AuthorizedKeys := "raw2" }
    else .error "connection refused"
  SplitAuthorisedKeys := fun s => if s = "raw2" then ["ssh-rsa AAA"] else []
  ParseAuthorizedKey := parseKeyTable

/-- A fake capability set where the model-listing call itself fails. -/
def capListFail : Capabilities String (List Nat) where
  ParseUserTag := parseTagTable
  ParsePublicKey := fun b => if b = [] then .error "short read" else .ok b
  Marshal := fun k => k
  ModelUUIDsForUser := fun _ => .error "list boom"
  GetModelConfig := fun _ => .error "model not found"
  SplitAuthorisedKeys := fun _ => []
  ParseAuthorizedKey := parseKeyTable

/-- RPC arguments: alice offering `keyA`. -/
def argsAliceA : SSHPKIAuthArgs := { UserTag := "user-alice", PublicKey := keyA }

/-- RPC arguments: alice offering `keyB`. -/
def argsAliceB : SSHPKIAuthArgs := { UserTag := "user-alice", PublicKey := keyB }

/-- RPC arguments: bob (no accessible model) offering `keyA`. -/
def argsBobA : SSHPKIAuthArgs := { UserTag := "user-bob", PublicKey := keyA }

/-- A fake terminating-hop authorization capability granting exactly the
key `keyA`, in the style of the mock facade client of
`TestSSHPublicKeyHandler`. -/
def checkKeyA : String → List Nat → Except String Unit := fun _ k =>
  if k = keyA then .ok () else .error "matching public key not found not found"

/-
Helper lemmas about the scan.
-/

/-- One authorized-key entry matches the candidate key: it parses and is
cryptographically equal to it. -/
def entryMatches {U P : Type} (cap : Capabilities U P) (pk : P)
    (entry : String) : Bool :=
  match cap.ParseAuthorizedKey entry with
  | .ok k => KeysEqual cap pk k
  | .error _ => false

theorem entryMatches_iff {U P : Type} (cap : Capabilities U P) (pk : P)
    (entry : String) :
    entryMatches cap pk entry = true ↔
      ∃ k, cap.ParseAuthorizedKey entry = .ok k ∧ KeysEqual cap pk k = true := by
  unfold entryMatches
  cases h : cap.ParseAuthorizedKey entry with
  | error e => simp [h]
  | ok k => simp [h]

theorem scanKeys_eq_any {U P : Type} (cap : Capabilities U P) (pk : P)
    (ks : List String) :
    scanKeys cap pk ks = ks.any (entryMatches cap pk) := by
  induction ks with
  | nil => rfl
  | cons a t ih =>
    simp only [scanKeys, List.any_cons, entryMatches]
    cases h : cap.ParseAuthorizedKey a with
    | error e => simp [ih]
    | ok k => cases hk : KeysEqual cap pk k <;> simp [hk, ih]

theorem scanKeys_eq_true_iff {U P : Type} (cap : Capabilities U P) (pk : P)
    (ks : List String) :
    scanKeys cap pk ks = true ↔
      ∃ entry ∈ ks, ∃ k, cap.ParseAuthorizedKey entry = .ok k ∧
        KeysEqual cap pk k = true := by
  rw [scanKeys_eq_any, List.any_eq_true]
  constructor
  · rintro ⟨e, he, hm⟩
    exact ⟨e, he, (entryMatches_iff cap pk e).mp hm⟩
  · rintro ⟨e, he, hm⟩
    exact ⟨e, he, (entryMatches_iff cap pk e).mpr hm⟩

theorem scanKeys_append {U P : Type} (cap : Capabilities U P) (pk : P)
    (l1 l2 : List String) :
    scanKeys cap pk (l1 ++ l2) = (scanKeys cap pk l1 || scanKeys cap pk l2) := by
  simp [scanKeys_eq_any]

theorem scanModels_ok_iff {U P : Type} (cap : Capabilities U P) (pk : P)
    (models : List String)
    (hfetch : ∀ m ∈ models, fetchOk cap m = true) :
    scanModels cap pk models = .ok () ↔ ∃ m ∈ models, keyMatchInModel cap pk m := by
  induction models with
  | nil => simp [scanModels]
  | cons a t ih =>
    have ha : fetchOk cap a = true := hfetch a (by simp)
    have ht : ∀ m ∈ t, fetchOk cap m = true := fun m hm => hfetch m (by simp [hm])
    cases h : authorizedKeysPerModel cap a with
    | error e =>
      unfold fetchOk at ha
      rw [h] at ha
      cases ha
    | ok ks =>
      simp only [scanModels, h]
      cases hsk : scanKeys cap pk ks with
      | true =>
        rw [if_pos rfl]
        constructor
        · intro _
          refine ⟨a, by simp, ks, h, ?_⟩
          exact (scanKeys_eq_true_iff cap pk ks).mp hsk
        · intro _
          rfl
      | false =>
        rw [if_neg (by simp)]
        rw [ih ht]
        constructor
        · rintro ⟨m, hm, hmatch⟩
          exact ⟨m, by simp [hm], hmatch⟩
        · rintro ⟨m, hm, hmatch⟩
          rcases List.mem_cons.mp hm with rfl | hm
          · rcases hmatch with ⟨ks2, hks2, hin⟩
            rw [h] at hks2
            cases hks2
            rw [(scanKeys_eq_true_iff cap pk ks).mpr hin] at hsk
            cases hsk
          · exact ⟨m, hm, hmatch⟩

theorem scanModels_error_notFound {U P : Type} (cap : Capabilities U P) (pk : P)
    (models : List String)
    (hfetch : ∀ m ∈ models, fetchOk cap m = true)
    (hne : scanModels cap pk models ≠ .ok ()) :
    scanModels cap pk models = .error (.notFound "matching public key not found") := by
  induction models with
  | nil => rfl
  | cons a t ih =>
    have ha : fetchOk cap a = true := hfetch a (by simp)
    have ht : ∀ m ∈ t, fetchOk cap m = true := fun m hm => hfetch m (by simp [hm])
    cases h : authorizedKeysPerModel cap a with
    | error e =>
      unfold fetchOk at ha
      rw [h] at ha
      cases ha
    | ok ks =>
      simp only [scanModels, h] at hne ⊢
      cases hsk : scanKeys cap pk ks with
      | true =>
        rw [hsk, if_pos rfl] at hne
        exact absurd rfl hne
      | false =>
        rw [hsk, if_neg (by simp)] at hne
        rw [if_neg (by simp)]
        exact ih ht hne

theorem scanModelsTrace_fst {U P : Type} (cap : Capabilities U P) (pk : P)
    (models : List String) :
    (scanModelsTrace cap pk models).1 = scanModels cap pk models := by
  induction models with
  | nil => rfl
  | cons a t ih =>
    simp only [scanModelsTrace, scanModels]
    cases h : authorizedKeysPerModel cap a with
    | error e => rfl
    | ok ks => cases hsk : scanKeys cap pk ks <;> simp [hsk, ih]

theorem publicKeyAuthenticationTrace_fst {U P : Type} (cap : Capabilities U P)
    (args : SSHPKIAuthArgs) :
    (PublicKeyAuthenticationTrace cap args).1 = PublicKeyAuthentication cap args := by
  unfold PublicKeyAuthenticationTrace PublicKeyAuthentication
  cases h1 : cap.ParseUserTag args.UserTag with
  | error e => rfl
  | ok u =>
    dsimp only
    cases h2 : cap.ParsePublicKey args.PublicKey with
    | error e => rfl
    | ok pk =>
      dsimp only
      cases h3 : cap.ModelUUIDsForUser u with
      | error e => rfl
      | ok ms => exact scanModelsTrace_fst cap pk ms

theorem scanModelsTrace_append_noMatch {U P : Type} (cap : Capabilities U P)
    (pk : P) (pre rest : List String)
    (hpre : ∀ p ∈ pre, fetchedNoMatch cap pk p = true) :
    scanModelsTrace cap pk (pre ++ rest)
      = ((scanModelsTrace cap pk rest).1, pre ++ (scanModelsTrace cap pk rest).2) := by
  induction pre with
  | nil => simp
  | cons a t ih =>
    have ha : fetchedNoMatch cap pk a = true := hpre a (by simp)
    have ht : ∀ p ∈ t, fetchedNoMatch cap pk p = true :=
      fun p hp => hpre p (by simp [hp])
    unfold fetchedNoMatch at ha
    simp only [List.cons_append, scanModelsTrace]
    cases h : authorizedKeysPerModel cap a with
    | error e =>
      rw [h] at ha
      cases ha
    | ok ks =>
      rw [h] at ha
      have hsk : scanKeys cap pk ks = false := by simpa using ha
      simp [hsk, ih ht]

theorem scanModels_append_noMatch {U P : Type} (cap : Capabilities U P)
    (pk : P) (pre rest : List String)
    (hpre : ∀ p ∈ pre, fetchedNoMatch cap pk p = true) :
    scanModels cap pk (pre ++ rest) = scanModels cap pk rest := by
  have h := congrArg Prod.fst (scanModelsTrace_append_noMatch cap pk pre rest hpre)
  simpa [scanModelsTrace_fst] using h

theorem publicKeyAuthentication_reduces {U P : Type} (cap : Capabilities U P)
    (args : SSHPKIAuthArgs) (u : U) (pk : P) (models : List String)
    (hu : cap.ParseUserTag args.UserTag = .ok u)
    (hk : cap.ParsePublicKey args.PublicKey = .ok pk)
    (hm : cap.ModelUUIDsForUser u = .ok models) :
    PublicKeyAuthentication cap args = scanModels cap pk models := by
  unfold PublicKeyAuthentication
  rw [hu]
  dsimp only
  rw [hk]
  dsimp only
  rw [hm]

theorem publicKeyAuthenticationTrace_reduces {U P : Type} (cap : Capabilities U P)
    (args : SSHPKIAuthArgs) (u : U) (pk : P) (models : List String)
    (hu : cap.ParseUserTag args.UserTag = .ok u)
    (hk : cap.ParsePublicKey args.PublicKey = .ok pk)
    (hm : cap.ModelUUIDsForUser u = .ok models) :
    PublicKeyAuthenticationTrace cap args
      = ((scanModelsTrace cap pk models).1,
          RemoteCall.listModels args.UserTag ::
            (scanModelsTrace cap pk models).2.map RemoteCall.fetchKeys) := by
  unfold PublicKeyAuthenticationTrace
  rw [hu]
  dsimp only
  rw [hk]
  dsimp only
  rw [hm]

/-- C1: when the user tag and the candidate key parse and the model listing
and every per-model fetch succeed, `PublicKeyAuthentication` returns
success exactly when the candidate key is cryptographically equal (equality
of the parsed keys' wire encodings, not of the entry strings) to some
parseable entry of the authorized-key list of some model the user can
access; when no entry of any accessible model matches — including a user
with no accessible model — it returns the not-found error. -/
theorem publicKeyAuthentication_match_iff {U P : Type} (cap : Capabilities U P)
    (args : SSHPKIAuthArgs) (u : U) (pk : P) (models : List String)
    (hu : cap.ParseUserTag args.UserTag = .ok u)
    (hk : cap.ParsePublicKey args.PublicKey = .ok pk)
    (hm : cap.ModelUUIDsForUser u = .ok models)
    (hfetch : ∀ m ∈ models, fetchOk cap m = true) :
    (PublicKeyAuthentication cap args = .ok () ↔
      ∃ m ∈ models, keyMatchInModel cap pk m)
    ∧ ((∀ m ∈ models, ¬ keyMatchInModel cap pk m) →
        PublicKeyAuthentication cap args
          = .error (.notFound "matching public key not found")) := by
  have hred := publicKeyAuthentication_reduces cap args u pk models hu hk hm
  constructor
  · rw [hred]
    exact scanModels_ok_iff cap pk models hfetch
  · intro hno
    rw [hred]
    apply scanModels_error_notFound cap pk models hfetch
    intro heq
    rcases (scanModels_ok_iff cap pk models hfetch).mp heq with ⟨m, hmem, hmatch⟩
    exact hno m hmem hmatch

/-- Witness for C1: alice offers the key stored (as a parseable entry) on
her model m2; authentication succeeds. -/
theorem publicKeyAuthentication_match_iff_witness :
    PublicKeyAuthentication capHappy argsAliceA = .ok () :=
  (publicKeyAuthentication_match_iff capHappy argsAliceA "alice" keyA
      ["m1", "m2", "m3"] rfl rfl rfl (by decide)).1.mpr
    ⟨"m2", by decide, ["ssh-rsa AAA"], rfl,
      ⟨"ssh-rsa AAA", by decide, keyA, rfl, by decide⟩⟩

/-- C3: an unparseable user tag, or an unparseable public key, makes
`PublicKeyAuthentication` return the corresponding distinct parse error
(carrying the parse failure), which is not classified not-found, and no
model-listing or key-fetching remote call is performed (empty trace). -/
theorem publicKeyAuthentication_parse_failure {U P : Type}
    (cap : Capabilities U P) (args : SSHPKIAuthArgs) :
    (∀ e, cap.ParseUserTag args.UserTag = .error e →
      PublicKeyAuthenticationTrace cap args
          = (.error (.failedParseUserTag e), [])
        ∧ (AuthError.failedParseUserTag e).isNotFound = false)
    ∧ (∀ (u : U) (e : String), cap.ParseUserTag args.UserTag = .ok u →
      cap.ParsePublicKey args.PublicKey = .error e →
      PublicKeyAuthenticationTrace cap args
          = (.error (.failedParsePublicKey e), [])
        ∧ (AuthError.failedParsePublicKey e).isNotFound = false) := by
  constructor
  · intro e he
    refine ⟨?_, rfl⟩
    unfold PublicKeyAuthenticationTrace
    rw [he]
  · intro u e hu he
    refine ⟨?_, rfl⟩
    unfold PublicKeyAuthenticationTrace
    rw [hu]
    dsimp only
    rw [he]

/-- Witness for C3: a malformed tag and a malformed key each produce their
parse error with an empty remote-call trace. -/
theorem publicKeyAuthentication_parse_failure_witness :
    (PublicKeyAuthenticationTrace capHappy
          { UserTag := "garbage", PublicKey := keyA }
        = (.error (.failedParseUserTag "invalid user tag"), [])
      ∧ (AuthError.failedParseUserTag "invalid user tag").isNotFound = false)
    ∧ (PublicKeyAuthenticationTrace capHappy
          { UserTag := "user-alice", PublicKey := [] }
        = (.error (.failedParsePublicKey "short read"), [])
      ∧ (AuthError.failedParsePublicKey "short read").isNotFound = false) :=
  ⟨(publicKeyAuthentication_parse_failure capHappy
      { UserTag := "garbage", PublicKey := keyA }).1 "invalid user tag" rfl,
   (publicKeyAuthentication_parse_failure capHappy
      { UserTag := "user-alice", PublicKey := [] }).2 "alice" "short read"
      rfl rfl⟩

/-- C4: an authorized-key entry that fails to parse is skipped — deleting
it leaves the scan of that list unchanged — and a malformed entry earlier
in a model's list never causes a false negative for a well-formed matching
entry later in the same list: `PublicKeyAuthentication` still succeeds. -/
theorem publicKeyAuthentication_skips_malformed {U P : Type}
    (cap : Capabilities U P) (args : SSHPKIAuthArgs) (u : U) (pk : P)
    (models : List String) (m : String) (kspre kssuf : List String)
    (bad eb good : String) (k : P)
    (hu : cap.ParseUserTag args.UserTag = .ok u)
    (hk : cap.ParsePublicKey args.PublicKey = .ok pk)
    (hm : cap.ModelUUIDsForUser u = .ok models)
    (hfetch : ∀ x ∈ models, fetchOk cap x = true)
    (hmem : m ∈ models)
    (hkeys : authorizedKeysPerModel cap m = .ok (kspre ++ bad :: kssuf))
    (hbad : cap.ParseAuthorizedKey bad = .error eb)
    (hgood : good ∈ kssuf)
    (hgp : cap.ParseAuthorizedKey good = .ok k)
    (hgm : KeysEqual cap pk k = true) :
    scanKeys cap pk (kspre ++ bad :: kssuf) = scanKeys cap pk (kspre ++ kssuf)
    ∧ PublicKeyAuthentication cap args = .ok () := by
  constructor
  · rw [scanKeys_append, scanKeys_append]
    have hskip : scanKeys cap pk (bad :: kssuf) = scanKeys cap pk kssuf := by
      simp only [scanKeys, hbad]
    rw [hskip]
  · rw [publicKeyAuthentication_reduces cap args u pk models hu hk hm]
    exact (scanModels_ok_iff cap pk models hfetch).mpr
      ⟨m, hmem, kspre ++ bad :: kssuf, hkeys,
        ⟨good, by simp [hgood], k, hgp, hgm⟩⟩

/-- Witness for C4: model m1 stores a malformed entry ahead of the entry
for `keyB`; alice authenticating with `keyB` still succeeds, and the
malformed entry is skipped. -/
theorem publicKeyAuthentication_skips_malformed_witness :
    scanKeys capHappy keyB ["bad entry", "ssh-rsa BBB"]
        = scanKeys capHappy keyB ["ssh-rsa BBB"]
    ∧ PublicKeyAuthentication capHappy argsAliceB = .ok () :=
  publicKeyAuthentication_skips_malformed capHappy argsAliceB "alice" keyB
    ["m1", "m2", "m3"] "m1" [] ["ssh-rsa BBB"] "bad entry" "no key found"
    "ssh-rsa BBB" keyB rfl rfl rfl (by decide) (by decide) rfl rfl
    (by decide) rfl (by decide)

/-- C2: models are scanned in the order returned by the model listing, keys
in stored order, and on the first matching key the call returns success
immediately: the remote-call trace is exactly the listing call followed by
fetches of the models up to and including the first matching one — the
remaining keys (`ksuf`) and remaining models (`suf`) are arbitrary and
never examined; as `PublicKeyAuthenticationTrace` is a function of the
capabilities and arguments, the decision is deterministic for fixed remote
responses. -/
theorem publicKeyAuthentication_first_match_short_circuit {U P : Type}
    (cap : Capabilities U P) (args : SSHPKIAuthArgs) (u : U) (pk : P)
    (pre suf : List String) (m : String) (kpre ksuf : List String)
    (entry : String) (k : P)
    (hu : cap.ParseUserTag args.UserTag = .ok u)
    (hk : cap.ParsePublicKey args.PublicKey = .ok pk)
    (hm : cap.ModelUUIDsForUser u = .ok (pre ++ m :: suf))
    (hpre : ∀ p ∈ pre, fetchedNoMatch cap pk p = true)
    (hfetch : authorizedKeysPerModel cap m = .ok (kpre ++ entry :: ksuf))
    (_hkpre : scanKeys cap pk kpre = false)
    (hentry : cap.ParseAuthorizedKey entry = .ok k)
    (hmatch : KeysEqual cap pk k = true) :
    PublicKeyAuthenticationTrace cap args
      = (.ok (), RemoteCall.listModels args.UserTag ::
          (pre ++ [m]).map RemoteCall.fetchKeys) := by
  have hsk : scanKeys cap pk (kpre ++ entry :: ksuf) = true := by
    rw [scanKeys_append]
    have hhd : scanKeys cap pk (entry :: ksuf) = true := by
      simp only [scanKeys, hentry]
      rw [if_pos hmatch]
    rw [hhd]
    simp
  have hstep : scanModelsTrace cap pk (m :: suf) = (.ok (), [m]) := by
    simp only [scanModelsTrace, hfetch]
    rw [if_pos hsk]
  rw [publicKeyAuthenticationTrace_reduces cap args u pk (pre ++ m :: suf) hu hk hm,
    scanModelsTrace_append_noMatch cap pk pre (m :: suf) hpre, hstep]

/-- Witness for C2: alice's first model has no matching key, her second
does, her third also would; the call succeeds having fetched only the
first two models. -/
theorem publicKeyAuthentication_first_match_short_circuit_witness :
    PublicKeyAuthenticationTrace capHappy argsAliceA
      = (.ok (), [RemoteCall.listModels "user-alice", RemoteCall.fetchKeys "m1",
          RemoteCall.fetchKeys "m2"]) :=
  publicKeyAuthentication_first_match_short_circuit capHappy argsAliceA "alice"
    keyA ["m1"] ["m3"] "m2" [] [] "ssh-rsa AAA" keyA rfl rfl rfl (by decide)
    rfl rfl rfl (by decide)

/-- C5: a remote-call failure is distinguishable from the legitimate
not-found outcome: a failing model listing or per-model fetch yields an
error that wraps the remote failure message and is not classified
not-found, while an exhausted scan with no match yields the not-found
error, which is. -/
theorem publicKeyAuthentication_error_classification {U P : Type} :
    (∀ (cap : Capabilities U P) (args : SSHPKIAuthArgs) (u : U) (pk : P)
        (e : String),
      cap.ParseUserTag args.UserTag = .ok u →
      cap.ParsePublicKey args.PublicKey = .ok pk →
      cap.ModelUUIDsForUser u = .error e →
      PublicKeyAuthentication cap args = .error (.failedGetModelUUIDs e)
        ∧ (AuthError.failedGetModelUUIDs e).isNotFound = false
        ∧ (AuthError.failedGetModelUUIDs e).render
            = "failed to get model uuids for user: " ++ e)
    ∧ (∀ (cap : Capabilities U P) (args : SSHPKIAuthArgs) (u : U) (pk : P)
        (pre suf : List String) (m e : String),
      cap.ParseUserTag args.UserTag = .ok u →
      cap.ParsePublicKey args.PublicKey = .ok pk →
      cap.ModelUUIDsForUser u = .ok (pre ++ m :: suf) →
      (∀ p ∈ pre, fetchedNoMatch cap pk p = true) →
      authorizedKeysPerModel cap m = .error e →
      PublicKeyAuthentication cap args = .error (.failedGetAuthKeys e)
        ∧ (AuthError.failedGetAuthKeys e).isNotFound = false
        ∧ (AuthError.failedGetAuthKeys e).render
            = "failed to get authorized key for model: " ++ e)
    ∧ (∀ (cap : Capabilities U P) (args : SSHPKIAuthArgs) (u : U) (pk : P)
        (models : List String),
      cap.ParseUserTag args.UserTag = .ok u →
      cap.ParsePublicKey args.PublicKey = .ok pk →
      cap.ModelUUIDsForUser u = .ok models →
      (∀ m ∈ models, fetchOk cap m = true) →
      (∀ m ∈ models, ¬ keyMatchInModel cap pk m) →
      PublicKeyAuthentication cap args
          = .error (.notFound "matching public key not found")
        ∧ (AuthError.notFound "matching public key not found").isNotFound
            = true) := by
  refine ⟨?_, ?_, ?_⟩
  · intro cap args u pk e hu hk he
    refine ⟨?_, rfl, rfl⟩
    unfold PublicKeyAuthentication
    rw [hu]
    dsimp only
    rw [hk]
    dsimp only
    rw [he]
  · intro cap args u pk pre suf m e hu hk hm hpre hfail
    refine ⟨?_, rfl, rfl⟩
    rw [publicKeyAuthentication_reduces cap args u pk (pre ++ m :: suf) hu hk hm,
      scanModels_append_noMatch cap pk pre (m :: suf) hpre]
    simp only [scanModels, hfail]
  · intro cap args u pk models hu hk hm hfetch hno
    refine ⟨?_, rfl⟩
    rw [publicKeyAuthentication_reduces cap args u pk models hu hk hm]
    apply scanModels_error_notFound cap pk models hfetch
    intro heq
    rcases (scanModels_ok_iff cap pk models hfetch).mp heq with ⟨m2, hmem, hmatch⟩
    exact hno m2 hmem hmatch

/-- Witness for C5: a failing model listing, a failing per-model fetch and
an exhausted scan (bob has no accessible model) produce their three
distinct outcomes. -/
theorem publicKeyAuthentication_error_classification_witness :
    (PublicKeyAuthentication capListFail argsAliceA
        = .error (.failedGetModelUUIDs "list boom")
      ∧ (AuthError.failedGetModelUUIDs "list boom").isNotFound = false
      ∧ (AuthError.failedGetModelUUIDs "list boom").render
          = "failed to get model uuids for user: " ++ "list boom")
    ∧ (PublicKeyAuthentication capFetchFail argsAliceA
        = .error (.failedGetAuthKeys "connection refused")
      ∧ (AuthError.failedGetAuthKeys "connection refused").isNotFound = false
      ∧ (AuthError.failedGetAuthKeys "connection refused").render
          = "failed to get authorized key for model: " ++ "connection refused")
    ∧ (PublicKeyAuthentication capHappy argsBobA
        = .error (.notFound "matching public key not found")
      ∧ (AuthError.notFound "matching public key not found").isNotFound
          = true) :=
  ⟨publicKeyAuthentication_error_classification.1 capListFail argsAliceA
      "alice" keyA "list boom" rfl rfl rfl,
   publicKeyAuthentication_error_classification.2.1 capFetchFail argsAliceA
      "alice" keyA [] ["m2"] "mf" "connection refused" rfl rfl rfl (by simp)
      rfl,
   publicKeyAuthentication_error_classification.2.2 capHappy argsBobA "bob"
      keyA [] rfl rfl rfl (by simp) (by simp)⟩

/-- C9: a failing per-model fetch aborts the whole scan: the call returns
that fetch error and the trace stops at the failing model — the models
after it (which are arbitrary here) are never fetched, so a key that would
match an entry of a later model does not grant access. -/
theorem publicKeyAuthentication_fetch_failure_aborts {U P : Type}
    (cap : Capabilities U P) (args : SSHPKIAuthArgs) (u : U) (pk : P)
    (pre suf : List String) (bad e : String)
    (hu : cap.ParseUserTag args.UserTag = .ok u)
    (hk : cap.ParsePublicKey args.PublicKey = .ok pk)
    (hm : cap.ModelUUIDsForUser u = .ok (pre ++ bad :: suf))
    (hpre : ∀ p ∈ pre, fetchedNoMatch cap pk p = true)
    (hbad : authorizedKeysPerModel cap bad = .error e) :
    PublicKeyAuthenticationTrace cap args
      = (.error (.failedGetAuthKeys e), RemoteCall.listModels args.UserTag ::
          (pre ++ [bad]).map RemoteCall.fetchKeys) := by
  have hstep : scanModelsTrace cap pk (bad :: suf)
      = (.error (.failedGetAuthKeys e), [bad]) := by
    simp only [scanModelsTrace, hbad]
  rw [publicKeyAuthenticationTrace_reduces cap args u pk (pre ++ bad :: suf) hu hk hm,
    scanModelsTrace_append_noMatch cap pk pre (bad :: suf) hpre, hstep]

/-- Witness for C9: the fetch of alice's first model fails while her second
model does hold a matching key; the call returns the fetch error and never
fetches the second model. -/
theorem publicKeyAuthentication_fetch_failure_aborts_witness :
    PublicKeyAuthenticationTrace capFetchFail argsAliceA
        = (.error (.failedGetAuthKeys "connection refused"),
            [RemoteCall.listModels "user-alice", RemoteCall.fetchKeys "mf"])
    ∧ keyMatchInModel capFetchFail keyA "m2" :=
  ⟨publicKeyAuthentication_fetch_failure_aborts capFetchFail argsAliceA "alice"
      keyA [] ["m2"] "mf" "connection refused" rfl rfl rfl (by simp) rfl,
   ⟨["ssh-rsa AAA"], rfl, ⟨"ssh-rsa AAA", by decide, keyA, rfl, by decide⟩⟩⟩

/-- C6 (spec-modelled): every configuration in which the host key, the
listener or the authorization client is unset fails `Validate` with a
"not valid" configuration error, and every configuration with all fields
set validates. -/
theorem serverWorkerConfig_validate_spec (c : ServerWorkerConfig) :
    ((c.JumpHostKey = "" ∨ c.Listener = none ∨ c.FacadeClient = none) →
      ∃ msg, c.Validate = .error (.notValid msg))
    ∧ (c.JumpHostKey ≠ "" → c.Listener ≠ none → c.FacadeClient ≠ none →
        c.Validate = .ok ()) := by
  constructor
  · intro h
    unfold ServerWorkerConfig.Validate
    by_cases hk : c.JumpHostKey = ""
    · exact ⟨"empty JumpHostKey", by rw [if_pos hk]⟩
    · rw [if_neg hk]
      cases hl : c.Listener with
      | none => exact ⟨"nil Listener", rfl⟩
      | some _ =>
        cases hf : c.FacadeClient with
        | none => exact ⟨"nil FacadeClient", rfl⟩
        | some _ =>
          rcases h with h | h | h
          · exact absurd h hk
          · rw [hl] at h
            simp at h
          · rw [hf] at h
            simp at h
  · intro hk hl hf
    unfold ServerWorkerConfig.Validate
    rw [if_neg hk]
    cases hlv : c.Listener with
    | none => exact absurd hlv hl
    | some u =>
      cases hfv : c.FacadeClient with
      | none => exact absurd hfv hf
      | some v => rfl

/-- Witness for C6: a config missing only the host key fails as not valid;
a fully-populated config validates. -/
theorem serverWorkerConfig_validate_spec_witness :
    (∃ msg, (ServerWorkerConfig.mk "" (some ()) (some ())).Validate
        = .error (.notValid msg))
    ∧ (ServerWorkerConfig.mk "jumpHostKey" (some ()) (some ())).Validate
        = .ok () :=
  ⟨(serverWorkerConfig_validate_spec
        (ServerWorkerConfig.mk "" (some ()) (some ()))).1 (Or.inl rfl),
   (serverWorkerConfig_validate_spec
        (ServerWorkerConfig.mk "jumpHostKey" (some ()) (some ()))).2
      (by decide) (by decide) (by decide)⟩

/-- C7 (spec-modelled): for the destination and authenticated user of the
end-to-end test, the terminating session output is exactly the
acknowledgement string asserted by `TestSSHServer`, and it contains a
single newline, at its end. -/
theorem terminatingAck_wire_contract :
    terminatingAck
        { unitNumber := 1, applicationName := "postgresql",
          modelID := "8419cd78-4993-4c3a-928e-c646226beeee", port := 20 }
        "ubuntu"
      = "Your final destination is: 1.postgresql.8419cd78-4993-4c3a-928e-c646226beeee.juju.local as user: ubuntu\n"
    ∧ (terminatingAck
        { unitNumber := 1, applicationName := "postgresql",
          modelID := "8419cd78-4993-4c3a-928e-c646226beeee", port := 20 }
        "ubuntu").toList.count '\n' = 1
    ∧ ((terminatingAck
        { unitNumber := 1, applicationName := "postgresql",
          modelID := "8419cd78-4993-4c3a-928e-c646226beeee", port := 20 }
        "ubuntu").toList.getLast? = some '\n') := by
  refine ⟨rfl, by decide, by decide⟩

/-- C8 (spec-modelled): a nil authorization result grants the public-key
callback, every error (not-found included) denies it; the terminating
handshake over the client's offered keys fails exactly when every offered
key is denied, and a denied key leaves the negotiation to continue with
the remaining keys unchanged. -/
theorem terminatingHandshake_grants_and_denies :
    (∀ (check : String → List Nat → Except String Unit) (user : String)
        (key : List Nat),
      check user key = .ok () → publicKeyCallback check user key = true)
    ∧ (∀ (check : String → List Nat → Except String Unit) (user : String)
        (key : List Nat) (e : String),
      check user key = .error e → publicKeyCallback check user key = false)
    ∧ (∀ (check : String → List Nat → Except String Unit) (user : String)
        (keys : List (List Nat)),
      terminatingHandshake check user keys = false ↔
        ∀ k ∈ keys, publicKeyCallback check user k = false)
    ∧ (∀ (check : String → List Nat → Except String Unit) (user : String)
        (k1 : List Nat) (rest : List (List Nat)),
      publicKeyCallback check user k1 = false →
        terminatingHandshake check user (k1 :: rest)
          = terminatingHandshake check user rest) := by
  refine ⟨?_, ?_, ?_, ?_⟩
  · intro check user key h
    unfold publicKeyCallback
    rw [h]
  · intro check user key e h
    unfold publicKeyCallback
    rw [h]
  · intro check user keys
    induction keys with
    | nil => simp [terminatingHandshake]
    | cons a t ih =>
      cases hc : publicKeyCallback check user a with
      | true => simp [terminatingHandshake, hc]
      | false => simp [terminatingHandshake, hc, ih]
  · intro check user k1 rest h
    simp [terminatingHandshake, h]

/-- Witness for C8: the capability granting exactly `keyA` grants that key,
denies `keyB` for an unknown user, makes a handshake offering only denied
keys fail, and continues past a denied key to a granted one. -/
theorem terminatingHandshake_grants_and_denies_witness :
    publicKeyCallback checkKeyA "alice" keyA = true
    ∧ publicKeyCallback checkKeyA "notfound" keyB = false
    ∧ (terminatingHandshake checkKeyA "notfound" [keyB] = false ↔
        ∀ k ∈ [keyB], publicKeyCallback checkKeyA "notfound" k = false)
    ∧ terminatingHandshake checkKeyA "alice" (keyB :: [keyA])
        = terminatingHandshake checkKeyA "alice" [keyA] :=
  ⟨terminatingHandshake_grants_and_denies.1 checkKeyA "alice" keyA rfl,
   terminatingHandshake_grants_and_denies.2.1 checkKeyA "notfound" keyB
      "matching public key not found not found" rfl,
   terminatingHandshake_grants_and_denies.2.2.1 checkKeyA "notfound" [keyB],
   terminatingHandshake_grants_and_denies.2.2.2 checkKeyA "alice" keyB [keyA]
      rfl⟩

/-- Counterexample to C10 as stated: a context whose caller authenticates
as a controller but whose system-state lookup fails receives an error and
no facade, refuting "constructs a facade if and only if the caller
authenticates as a controller". -/
theorem newExternalFacade_iff_counterexample :
    (FacadeContext.mk (Authorizer.mk true)
        (StatePoolRef.mk (.error "state pool unavailable"))).Auth.AuthController
      = true
    ∧ NewExternalFacade (FacadeContext.mk (Authorizer.mk true)
        (StatePoolRef.mk (.error "state pool unavailable")))
      = .error (.traced "state pool unavailable") :=
  ⟨rfl, rfl⟩

/-- C10 (amended): `NewExternalFacade` returns a facade only if the caller
authenticates as a controller; every non-controller context receives the
permission-denied error and no facade; a controller context receives a
facade provided the system-state lookup succeeds. -/
theorem newExternalFacade_controller_gate (ctx : FacadeContext) :
    (ctx.Auth.AuthController = false →
      NewExternalFacade ctx = .error .errPerm)
    ∧ (∀ f, NewExternalFacade ctx = .ok f →
        ctx.Auth.AuthController = true)
    ∧ (∀ st, ctx.Auth.AuthController = true →
        ctx.StatePool.SystemState = .ok st →
        NewExternalFacade ctx
          = .ok { statePool := ctx.StatePool, systemState := st }) := by
  refine ⟨?_, ?_, ?_⟩
  · intro h
    unfold NewExternalFacade
    rw [h]
    rfl
  · intro f hf
    cases h : ctx.Auth.AuthController with
    | true => rfl
    | false =>
      unfold NewExternalFacade at hf
      rw [h] at hf
      simp at hf
  · intro st h hst
    unfold NewExternalFacade
    rw [h, if_neg (by simp), hst]

/-- Witness for C10 (amended): a non-controller context is denied with the
permission error; a controller context with a healthy state pool gets the
facade. -/
theorem newExternalFacade_controller_gate_witness :
    NewExternalFacade (FacadeContext.mk (Authorizer.mk false)
        (StatePoolRef.mk (.ok (SystemStateRef.mk "system"))))
      = .error .errPerm
    ∧ NewExternalFacade (FacadeContext.mk (Authorizer.mk true)
        (StatePoolRef.mk (.ok (SystemStateRef.mk "system"))))
      = .ok { statePool := StatePoolRef.mk (.ok (SystemStateRef.mk "system")),
              systemState := SystemStateRef.mk "system" } :=
  ⟨(newExternalFacade_controller_gate
      (FacadeContext.mk (Authorizer.mk false)
        (StatePoolRef.mk (.ok (SystemStateRef.mk "system"))))).1 rfl,
   (newExternalFacade_controller_gate
      (FacadeContext.mk (Authorizer.mk true)
        (StatePoolRef.mk (.ok (SystemStateRef.mk "system"))))).2.2
      (SystemStateRef.mk "system") rfl rfl⟩
